import Mathlib

/-!
Shallow embedding of the massa-test-framework transport layer
(`massa_test_framework/remote.py`, `server.py`, `node.py`) and proofs about it.

Conventions of the embedding:
* a `Server` execution context is identified by a natural number (its `sid`);
* Python exceptions are values of `PyErr`, fallible code returns `Except PyErr _`;
* filesystems are finite association lists (newest binding first), so every
  definition is executable and closed statements can be settled by `decide`/`rfl`.
-/

namespace MassaTF

/-- Python exception classes that appear in the embedded code paths. -/
inductive PyErr where
  | runtimeError (msg : String)
  | notImplementedError
  | attributeError (attr : String)
  | fileNotFoundError
  | fileExistsError
  | ioError
  | indexError
  | timeoutError (msg : String)
  | connectionRefusedError
  | connectionError
  | typeError
deriving DecidableEq

/-- Embedding of `remote.RemotePath`: a POSIX path string tagged with the id of the
owning `Server` execution context (the `server` attribute set in `__new__`). -/
structure RemotePathV where
  path : String
  server : Nat
deriving DecidableEq

/-- Embedding of `RemotePath.__new__`: the constructor raises
`RuntimeError("Need a server")` when the `server` keyword argument is absent;
otherwise the new path stores the given server as its owning context. -/
def RemotePathV.new (args : String) (serverKw : Option Nat) : Except PyErr RemotePathV :=
  match serverKw with
  | none => .error (.runtimeError "Need a server")
  | some s => .ok ⟨args, s⟩

/-- Embedding of `RemotePath.__truediv__`: `p = super().__truediv__(other)` joins the
path segments, then `p.server = self.server` carries the owning context over. -/
def RemotePathV.truediv (p : RemotePathV) (seg : String) : RemotePathV :=
  ⟨p.path ++ "/" ++ seg, p.server⟩

/-- An argument acceptable by `copy_file`: a plain `pathlib.Path` (local) or a
`RemotePath`.  `isinstance(x, Path)` holds for both shapes; `isinstance(x, RemotePath)`
holds only for `.remote`. -/
inductive PPath where
  | loc (p : String)
  | remote (rp : RemotePathV)
deriving DecidableEq

/-- Path composition on either shape of path (`/` of pathlib, overridden by
`RemotePath.__truediv__` on the remote shape). -/
def PPath.truediv : PPath → String → PPath
  | .loc p, seg => .loc (p ++ "/" ++ seg)
  | .remote rp, seg => .remote (rp.truediv seg)

/-- Attribute names defined on `class Server` (`server.py`): its methods, property and
the instance attributes set in `__init__`.  Python attribute lookup on a `Server`
instance resolves inside this list and raises `AttributeError` otherwise.  Note that
`get_file` is NOT among them: no method of that name exists anywhere in the repository. -/
def serverAttrs : List String :=
  ["__init__", "send_file", "run", "mkdtemp", "mkdir", "open", "remove", "stop", "host",
   "server_opts", "server", "_cleanup"]

/-- Python attribute lookup on a `Server` instance (class-body names only). -/
def serverHasAttr (name : String) : Bool :=
  serverAttrs.contains name

/-- The two-sided filesystem state seen by `copy_file`: local files and, per remote
context id, remote files; both map a path to the file's content. -/
structure Fs where
  localFs : List (String × String)
  remoteFs : List ((Nat × String) × String)
deriving DecidableEq

def Fs.localGet (fs : Fs) (p : String) : Option String :=
  fs.localFs.lookup p

def Fs.remoteGet (fs : Fs) (sid : Nat) (p : String) : Option String :=
  fs.remoteFs.lookup (sid, p)

def Fs.localSet (fs : Fs) (p content : String) : Fs :=
  { fs with localFs := (p, content) :: fs.localFs }

def Fs.remoteSet (fs : Fs) (sid : Nat) (p content : String) : Fs :=
  { fs with remoteFs := ((sid, p), content) :: fs.remoteFs }

/-- Embedding of `remote.copy_file`.  The four match arms mirror the source's `match`
in order (both `RemotePath`; `Path` to `RemotePath`; `RemotePath` to `Path`; default):

* both remote, same server: stream copy through `server.open(src, "r")` /
  `server.open(dst, "w+")` and `shutil.copyfileobj`;
* both remote, different server: `raise NotImplementedError`;
* local to remote: `dst.server.send_file(src, dst)`, an SFTP `put` of the local file;
* remote to local: the source executes `src.server.get_file(src, dst)`; `Server`
  defines no attribute `get_file` (see `serverAttrs`), so under Python semantics the
  attribute lookup itself raises `AttributeError` — the guarded branch models what the
  call would do if the attribute resolved, and is unreachable;
* both local: `shutil.copy`.

Reads of a missing file raise `FileNotFoundError` (SFTP open for read / `put` /
`shutil.copy` all fail on a missing source). -/
def copy_file (fs : Fs) (src dst : PPath) : Except PyErr Fs :=
  match src, dst with
  | .remote s, .remote d =>
      if s.server = d.server then
        match fs.remoteGet s.server s.path with
        | some content => .ok (fs.remoteSet d.server d.path content)
        | none => .error .fileNotFoundError
      else
        .error .notImplementedError
  | .loc s, .remote d =>
      match fs.localGet s with
      | some content => .ok (fs.remoteSet d.server d.path content)
      | none => .error .fileNotFoundError
  | .remote s, .loc d =>
      if serverHasAttr "get_file" then
        match fs.remoteGet s.server s.path with
        | some content => .ok (fs.localSet d content)
        | none => .error .fileNotFoundError
      else
        .error (.attributeError "get_file")
  | .loc s, .loc d =>
      match fs.localGet s with
      | some content => .ok (fs.localSet d content)
      | none => .error .fileNotFoundError

/-- The dispatch decision taken by `copy_file` for a pair of arguments: which match
arm fires, and through which execution context the operation is routed. -/
inductive CopyRoute where
  | sameServerStream (sid : Nat)
  | crossServerNotImplemented
  | upload (sid : Nat)
  | download (sid : Nat)
  | localCopy
deriving DecidableEq

/-- The routing component of `copy_file`'s `match`, by itself. -/
def copyRoute : PPath → PPath → CopyRoute
  | .remote s, .remote d =>
      if s.server = d.server then .sameServerStream s.server else .crossServerNotImplemented
  | .loc _, .remote d => .upload d.server
  | .remote s, .loc _ => .download s.server
  | .loc _, .loc _ => .localCopy

/-!  Directory creation (`SshServer.mkdir`, `Server.mkdir`, `Server.mkdtemp`).
A directory tree on one backend is modelled as the list of existing paths. -/

/-- The set of directories existing on one backend. -/
abbrev DirFs := List String

/-- Membership test on the directory set. -/
def DirFs.exists? : DirFs → String → Bool
  | [], _ => false
  | q :: fs, p => if q = p then true else DirFs.exists? fs p

/-- SFTP open-for-read probe used by `SshServer.mkdir` with `exist_ok=True`: the
server-side `open(2)` with `O_RDONLY` succeeds on an existing path (files and
directories alike) and fails with `FileNotFoundError` on a missing one. -/
def sftpOpenR (fs : DirFs) (p : String) : Except PyErr Unit :=
  if fs.exists? p then .ok () else .error .fileNotFoundError

/-- SFTP `mkdir`: fails (an `IOError` raised by the client library) when the path
already exists, creates it otherwise. -/
def sftpMkdir (fs : DirFs) (p : String) : Except PyErr DirFs :=
  if fs.exists? p then .error .ioError else .ok (p :: fs)

/-- Embedding of `SshServer.mkdir(folder, exist_ok, parents)`: with `exist_ok` the code
probes the path by opening it for read and only calls the SFTP `mkdir` when the probe
raises `FileNotFoundError`; without `exist_ok` it calls the SFTP `mkdir` directly.
The `parents` argument is accepted by the source and never used. -/
def SshServer.mkdir (fs : DirFs) (folder : String) (exist_ok : Bool := false) : Except PyErr DirFs :=
  if exist_ok then
    match sftpOpenR fs folder with
    | .ok _ => .ok fs
    | .error .fileNotFoundError => sftpMkdir fs folder
    | .error e => .error e
  else
    sftpMkdir fs folder

/-- Contract of `pathlib.Path.mkdir(parents, exist_ok)` on the target path: an existing
path raises `FileExistsError` unless `exist_ok`; a missing path is created.  Parent
creation (`parents=True`) does not affect the target path itself and is elided. -/
def pathlibMkdir (fs : DirFs) (folder : String) (exist_ok : Bool) : Except PyErr DirFs :=
  if fs.exists? folder then
    if exist_ok then .ok fs else .error .fileExistsError
  else
    .ok (folder :: fs)

/-- Embedding of `Server.mkdir(folder)`: the local backend calls
`folder.mkdir(parents=True, exist_ok=True)`, the remote backend calls
`SshServer.mkdir(folder, exist_ok=True)`. -/
def Server.mkdirOp (isLocal : Bool) (fs : DirFs) (folder : String) : Except PyErr DirFs :=
  if isLocal then pathlibMkdir fs folder true
  else SshServer.mkdir fs folder true

/-- The same two backend calls with `exist_ok=False` (the default of
`SshServer.mkdir`, and `pathlib.Path.mkdir`'s default). -/
def mkdirStrict (isLocal : Bool) (fs : DirFs) (folder : String) : Except PyErr DirFs :=
  if isLocal then pathlibMkdir fs folder false
  else SshServer.mkdir fs folder false

/-!  Temporary directories (`SshServer.mkdtemp`, `Server.mkdtemp`) and context
teardown. -/

/-- The fields of `datetime.datetime.now()` consumed by the strftime format
`"%Y%m%d_%H%M%S_%f"`: date, time-of-day, and the microsecond field. -/
structure PyTime where
  ymd : String
  hms : String
  micro : Nat
deriving DecidableEq

/-- Zero-padding of the `%f` field to six digits. -/
def pad6 (n : Nat) : String :=
  let s := toString n
  String.mk (List.replicate (6 - s.length) '0') ++ s

/-- The suffix `now.strftime("%Y%m%d_%H%M%S_%f")`: second-resolution clock fields
followed by the microsecond field, so the name has sub-second resolution. -/
def strftimeSuffix (now : PyTime) : String :=
  now.ymd ++ "_" ++ now.hms ++ "_" ++ pad6 now.micro

/-- Python `x or default` on an optional string: `None` and the empty string are
falsy and give the default. -/
def pyOrDefault (x : Option String) (d : String) : String :=
  match x with
  | none => d
  | some s => if s = "" then d else s

/-- The name synthesized by `SshServer.mkdtemp(prefix)`:
`Path("/tmp") / ((prefix or "tmp_py_mf_") + now.strftime("%Y%m%d_%H%M%S_%f"))`. -/
def mkdtempName (now : PyTime) (pfx : Option String) : String :=
  "/tmp/" ++ (pyOrDefault pfx "tmp_py_mf_" ++ strftimeSuffix now)

/-- Embedding of `SshServer.mkdtemp(prefix)`: the directory name is synthesized by
`mkdtempName` and the directory is created explicitly through `SshServer.mkdir` (with
its `exist_ok=False` default).  Returns the created path together with the new remote
tree. -/
def SshServer.mkdtempOp (fs : DirFs) (now : PyTime) (pfx : Option String) :
    Except PyErr (String × DirFs) :=
  let tmpFolder := mkdtempName now pfx
  match SshServer.mkdir fs tmpFolder with
  | .ok fs' => .ok (tmpFolder, fs')
  | .error e => .error e

/-- The mutable state of a `Server` instance: which backend it wraps, its context id,
and the `_cleanup` list of registered temporary paths. -/
structure ServerState where
  isLocal : Bool
  sid : Nat
  cleanup : List String
deriving DecidableEq

/-- Contract of `tempfile.mkdtemp(prefix)` on the local host: a fresh uniquely-named
directory `freshLocal` (assumed absent from the tree) is created and returned. -/
def tempfileMkdtemp (fs : DirFs) (freshLocal : String) : String × DirFs :=
  (freshLocal, freshLocal :: fs)

/-- Embedding of `Server.mkdtemp(prefix)`: the local backend takes the host facility's
fresh directory and wraps it as a plain `Path`; the remote backend synthesizes the
name via `SshServer.mkdtemp` and wraps it as `RemotePath(..., server=self)`.  In both
branches the created path is appended to `self._cleanup`. -/
def Server.mkdtempOp (st : ServerState) (fs : DirFs) (now : PyTime) (pfx : Option String)
    (freshLocal : String) : Except PyErr (PPath × ServerState × DirFs) :=
  if st.isLocal then
    let (p, fs') := tempfileMkdtemp fs freshLocal
    .ok (.loc p, { st with cleanup := st.cleanup ++ [p] }, fs')
  else
    match SshServer.mkdtempOp fs now pfx with
    | .ok (p, fs') => .ok (.remote ⟨p, st.sid⟩, { st with cleanup := st.cleanup ++ [p] }, fs')
    | .error e => .error e

/-- Context teardown of a `Server`: the class defines no finalizer (`__del__`), no
close and no cleanup method, and `_cleanup` is appended to in `mkdtemp` but read
nowhere in the repository; destroying the object therefore performs no filesystem
operation, and the directory tree is left unchanged. -/
def Server.teardown (_st : ServerState) (fs : DirFs) : DirFs :=
  fs

/-!  Command termination (`Server.stop`). -/

/-- Effects `Server.stop` can have on the underlying command. -/
inductive ProcEv where
  | terminate
  | channelClose
deriving DecidableEq

/-- Embedding of `Server.stop(process)`: `if self.server_opts.local:
process.terminate()` — and there is no else branch, so on the remote backend the
method returns immediately with no effect. -/
def Server.stopOp (isLocal : Bool) : List ProcEv :=
  if isLocal then [.terminate] else []

/-!  Remote command submission (`SshServer.run`): environment injection and working
directory emulation by command prefixing. -/

/-- A single quote character, as used by the f-string `f"{env_var}='{env_value}'"`. -/
def squote : String := "\x27"

/-- One environment assignment `VAR='value'` as built per entry of the `env` dict. -/
def envAssign (kv : String × String) : String :=
  kv.1 ++ "=" ++ squote ++ kv.2 ++ squote

/-- Embedding of the command-string construction in `SshServer.run(cmd, cwd, env)`:
`cmd = cmd[0]` (an `IndexError` on an empty list); then, when `env` is non-empty, the
space-joined assignments are prepended (`" ".join(cmd_prefix) + " " + cmd`); then,
when `cwd` is set, the string becomes `f"cd {cwd} && " + cmd`.  The result is the
exact string handed to `Channel.exec_command`. -/
def SshServer.runCmd (cmd : List String) (cwd : Option String)
    (env : List (String × String)) : Except PyErr String :=
  match cmd with
  | [] => .error .indexError
  | c :: _ =>
      let c1 :=
        if env.isEmpty then c
        else String.intercalate " " (env.map envAssign) ++ " " ++ c
      let c2 :=
        match cwd with
        | some d => "cd " ++ d ++ " && " ++ c1
        | none => c1
      .ok c2

/-!  The remote command handle (`ParamikoRemotePopen`) and its scoped-resource
(`contextmanager`) protocol. -/

/-- The paramiko channel fields the handle manipulates: the `eof_received` flag the
drain worker polls, and the session's exit status. -/
structure Channel where
  eofReceived : Bool
  exitStatus : Int
deriving DecidableEq

/-- The handle state: the wrapped channel and the captured `returncode`
(initialized to the unset sentinel `-1` in `__init__`). -/
structure RemotePopen where
  channel : Channel
  returncode : Int
deriving DecidableEq

/-- Embedding of `ParamikoRemotePopen.__init__`: wraps the channel and sets
`returncode = -1`. -/
def ParamikoRemotePopen.init (ch : Channel) : RemotePopen :=
  ⟨ch, -1⟩

/-- Observable events of one `ParamikoRemotePopen.run` scope, in program order. -/
inductive Ev where
  | startDrainThread
  | execCommand (cmd : String)
  | signalEof
  | joinDrain (timeoutSec : Nat)
  | captureExit (code : Int)
deriving DecidableEq

/-- One in-flight scope: the handle plus the log of events performed so far. -/
structure RunState where
  proc : RemotePopen
  log : List Ev
deriving DecidableEq

/-- Python `try:  body  finally:  fin`: the finally block runs on the state whether
the body completed or raised, and the body's outcome (value or exception) is then
propagated unchanged. -/
def tryFinally {σ α : Type} (body : σ → σ × Except PyErr α) (fin : σ → σ) (s : σ) :
    σ × Except PyErr α :=
  let (s1, r) := body s
  (fin s1, r)

/-- The `finally` block of `ParamikoRemotePopen.run`: set `channel.eof_received =
True` (the end-of-stream signal the drain worker polls), `bgthd.join(1)` (join the
drain worker with a 1-second timeout), then capture `self.returncode =
self.channel.exit_status`. -/
def ParamikoRemotePopen.teardownCM (s : RunState) : RunState :=
  let ch := { s.proc.channel with eofReceived := true }
  { proc := { channel := ch, returncode := ch.exitStatus },
    log := s.log ++ [.signalEof, .joinDrain 1, .captureExit ch.exitStatus] }

/-- Embedding of the `ParamikoRemotePopen.run(cmd, stdout)` context manager: start the
background drain thread, submit the command with `exec_command`, yield to the caller's
block (whose outcome — normal completion or a raised exception — is the parameter
`bodyOutcome`), and run the teardown in a `finally`, after which the block's outcome
propagates unchanged. -/
def ParamikoRemotePopen.runScoped (ch : Channel) (cmd : String)
    (bodyOutcome : Except PyErr Unit) : RunState × Except PyErr Unit :=
  let p0 := ParamikoRemotePopen.init ch
  let s0 : RunState := ⟨p0, [.startDrainThread, .execCommand cmd]⟩
  tryFinally (fun s => (s, bodyOutcome)) ParamikoRemotePopen.teardownCM s0

/-!  Node shutdown (`Node.stop`) and readiness wait (`Node.wait_ready`). -/

/-- The two shutdown mechanisms `Node.stop` can invoke, in order. -/
inductive StopEv where
  | apiStopNode
  | transportStop
deriving DecidableEq

/-- Embedding of `Node.stop(process)`: `self.priv_api2.stop_node()` is attempted
first; exactly a `ConnectionRefusedError` or a `requests.exceptions.ConnectionError`
raised by it is caught and answered by the transport-level `self.server.stop(process)`;
any other exception propagates and a successful API stop triggers nothing further.
The parameter `apiResult` is the outcome of the `stop_node()` call. -/
def Node.stopOp (apiResult : Except PyErr Unit) : List StopEv × Except PyErr Unit :=
  match apiResult with
  | .ok _ => ([.apiStopNode], .ok ())
  | .error e =>
      if e = .connectionRefusedError ∨ e = .connectionError then
        ([.apiStopNode, .transportStop], .ok ())
      else
        ([.apiStopNode], .error e)

deriving instance DecidableEq for Except

/-- The exceptions `Node.wait_ready` catches from `get_last_period`: `TypeError`
(last slot still `None`) and `requests.exceptions.ConnectionError`. -/
def isCaughtFail (r : Except PyErr Unit) : Prop :=
  r = .error .connectionError ∨ r = .error .typeError

instance (r : Except PyErr Unit) : Decidable (isCaughtFail r) := by
  unfold isCaughtFail
  infer_instance

/-- The loop of `Node.wait_ready`, with `duration = 0.5` seconds.  `attempt k` is the
outcome of the `k`-th `get_last_period()` call; `n` counts the sleeps performed so far
(so the float accumulator `count` equals `n * 0.5`); `rem` is the number of further
sleeps permitted before the budget check fires, maintained as `rem = 2*timeout - n`:
the source's raise condition `count + 0.5 > timeout` over exact multiples of the float
`0.5` is `n + 1 > 2*timeout`, i.e. `rem = 0`.  Returns the outcome together with the
total number of sleeps performed. -/
def Node.waitReadyGo (attempt : Nat → Except PyErr Unit) (timeout : Nat) :
    Nat → Nat → (Except PyErr Unit) × Nat
  | n, rem =>
    match attempt n with
    | .ok _ => (.ok (), n)
    | .error e =>
        if isCaughtFail (.error e) then
          match rem with
          | 0 =>
              (.error (.timeoutError
                ("Node is not ready after " ++ toString timeout ++ " seconds")), n + 1)
          | r + 1 => Node.waitReadyGo attempt timeout (n + 1) r
        else
          (.error e, n)

/-- Embedding of `Node.wait_ready(timeout)` (default budget 20 seconds): run the
polling loop starting from `count = 0` with `2*timeout` further sleeps permitted. -/
def Node.wait_ready (attempt : Nat → Except PyErr Unit) (timeout : Nat := 20) :
    (Except PyErr Unit) × Nat :=
  Node.waitReadyGo attempt timeout 0 (2 * timeout)

/-- Wall-clock seconds slept by `wait_ready` after `s` sleeps of `0.5` seconds. -/
def elapsedQ (s : Nat) : ℚ :=
  s * (1 / 2 : ℚ)

/-- A readiness probe that always fails with a caught connection error. -/
def neverReadyProbe : Nat → Except PyErr Unit :=
  fun _ => .error .connectionError

/-- A readiness probe that fails twice with a caught error and then succeeds. -/
def readyAtTwoProbe : Nat → Except PyErr Unit :=
  fun n => if n < 2 then .error .typeError else .ok ()

/-!
Theorems.
-/

/-- Sanity link between the integer guard used in `Node.waitReadyGo` and the source's
float comparison `count > timeout` at `count = (n+1) * 0.5`. -/
theorem halfCount_gt_iff (n timeout : Nat) :
    ((n + 1 : ℚ) * (1 / 2) > (timeout : ℚ)) ↔ n + 1 > 2 * timeout := by
  rw [gt_iff_lt, gt_iff_lt]
  constructor
  · intro h
    have h2 : (2 * timeout : ℚ) < ((n : ℚ) + 1) := by linarith
    exact_mod_cast h2
  · intro h
    have h2 : (2 * timeout : ℚ) < ((n : ℚ) + 1) := by exact_mod_cast h
    linarith

/-- C1: for every remote command handle obtained from `ParamikoRemotePopen.run`, and
for every exit of the caller's scoped block — normal completion or a raised
exception — the handle performs the full teardown before control leaves the scope:
the end-of-stream flag the drain worker polls is set, the drain worker is joined with
a bounded 1-second timeout, and the session's exit status is captured into
`returncode`; and the block's outcome (in particular, the original exception)
propagates unchanged. -/
theorem run_scoped_teardown_on_all_paths (ch : Channel) (cmd : String)
    (bodyOutcome : Except PyErr Unit) :
    ((ParamikoRemotePopen.runScoped ch cmd bodyOutcome).1.proc.channel.eofReceived = true) ∧
    ((ParamikoRemotePopen.runScoped ch cmd bodyOutcome).1.proc.returncode = ch.exitStatus) ∧
    ((ParamikoRemotePopen.runScoped ch cmd bodyOutcome).1.log =
      [.startDrainThread, .execCommand cmd, .signalEof, .joinDrain 1,
       .captureExit ch.exitStatus]) ∧
    ((ParamikoRemotePopen.runScoped ch cmd bodyOutcome).2 = bodyOutcome) :=
  ⟨rfl, rfl, rfl, rfl⟩

/-- C2, evaluation at the failing input: a copy from a remote path (context 1, file
present with content) to a local path does not download the file — `Server` has no
`get_file` attribute, so the dispatch arm itself raises `AttributeError`. -/
theorem copy_file_download_attribute_error :
    copy_file ⟨[], [((1, "/tmp/massa_cfg/config.toml"), "node config")]⟩
      (.remote ⟨"/tmp/massa_cfg/config.toml", 1⟩) (.loc "/home/user/config.toml")
      = .error (.attributeError "get_file") ∧
    serverHasAttr "get_file" = false := by
  constructor <;> rfl

/-- Content correctness of the three functioning `copy_file` arms (supporting fact,
not itself a claim): same-context remote copy, upload, and local copy each make the
destination's content equal the source's. -/
theorem copy_file_supported_cases_content (fs : Fs) (s d : String) (sid : Nat)
    (content : String) :
    (fs.remoteGet sid s = some content →
      ∃ fs', copy_file fs (.remote ⟨s, sid⟩) (.remote ⟨d, sid⟩) = .ok fs' ∧
             fs'.remoteGet sid d = some content) ∧
    (fs.localGet s = some content →
      ∃ fs', copy_file fs (.loc s) (.remote ⟨d, sid⟩) = .ok fs' ∧
             fs'.remoteGet sid d = some content) ∧
    (fs.localGet s = some content →
      ∃ fs', copy_file fs (.loc s) (.loc d) = .ok fs' ∧
             fs'.localGet d = some content) := by
  refine ⟨fun h => ⟨fs.remoteSet sid d content, ?_, ?_⟩,
          fun h => ⟨fs.remoteSet sid d content, ?_, ?_⟩,
          fun h => ⟨fs.localSet d content, ?_, ?_⟩⟩ <;>
    (simp only [Fs.remoteGet, Fs.localGet] at h
     simp [copy_file, h, Fs.remoteSet, Fs.remoteGet, Fs.localSet, Fs.localGet])

/-- Cross-context remote copy fails fast with `NotImplementedError` (supporting fact
for C2's fifth row). -/
theorem copy_file_cross_context_not_implemented (fs : Fs) (s d : RemotePathV)
    (h : s.server ≠ d.server) :
    copy_file fs (.remote s) (.remote d) = .error .notImplementedError := by
  simp [copy_file, h]

/-- Witness for `copy_file_cross_context_not_implemented` at concrete contexts 1 and 2. -/
theorem copy_file_cross_context_not_implemented_witness :
    copy_file ⟨[], []⟩ (.remote ⟨"/tmp/a", 1⟩) (.remote ⟨"/tmp/b", 2⟩)
      = .error .notImplementedError :=
  copy_file_cross_context_not_implemented ⟨[], []⟩ ⟨"/tmp/a", 1⟩ ⟨"/tmp/b", 2⟩ (by decide)

/-- C3: the string submitted to the remote session by `SshServer.run` is the command
prefixed first by one `VAR='value'` assignment per `env` entry (space-joined, in
mapping order), and then — outermost — by `cd <cwd> && ` when `cwd` is set. -/
theorem ssh_run_command_prefixing (c : String) (rest : List String)
    (cwd : Option String) (env : List (String × String)) :
    SshServer.runCmd (c :: rest) cwd env = .ok
      ((match cwd with | some d => "cd " ++ d ++ " && " | none => "") ++
       ((if env.isEmpty then "" else
          String.intercalate " " (env.map envAssign) ++ " ") ++ c)) := by
  cases cwd <;> cases env <;>
    simp [SshServer.runCmd, String.append_assoc]

/-- C5, counterexample: on the remote backend `Server.stop` performs no effect at
all — in particular it does not close the channel, contrary to the claim's
"best-effort termination by closing the channel is carried out". -/
theorem server_stop_remote_noop_cex :
    Server.stopOp false = [] ∧ ProcEv.channelClose ∉ Server.stopOp false := by
  constructor
  · rfl
  · simp [Server.stopOp]

/-- C5, amended: `Server.stop` sends a termination signal on the local backend and
performs no action at all on the remote backend (no forced kill, and no channel close
either). -/
theorem server_stop_amended :
    Server.stopOp true = [ProcEv.terminate] ∧ Server.stopOp false = [] :=
  ⟨rfl, rfl⟩

/-- C8: composing a remote-owned path with relative segments yields a remote path
with the same owning context, and `copy_file`'s dispatch on the composed path routes
through that context's backend (download, upload, or same-context stream), not the
local filesystem arm. -/
theorem remote_path_div_preserves_owner (p : RemotePathV) (s : String) (d : String) :
    ((PPath.remote p).truediv s = .remote (p.truediv s)) ∧
    ((p.truediv s).server = p.server) ∧
    (copyRoute (.remote (p.truediv s)) (.loc d) = .download p.server) ∧
    (copyRoute (.loc d) (.remote (p.truediv s)) = .upload p.server) ∧
    (copyRoute (.remote (p.truediv s)) (.remote p) = .sameServerStream p.server) :=
  ⟨rfl, rfl, rfl, rfl, by simp [copyRoute, RemotePathV.truediv]⟩

/-- C4, counterexample: a concrete remote `mkdtemp` synthesizes the expected
timestamped name, creates it, and appends it to the cleanup registry — but context
teardown removes nothing, so the directory is still present afterwards, contrary to
the claim's "best-effort removed at context teardown". -/
theorem mkdtemp_no_teardown_removal_cex :
    Server.mkdtempOp ⟨false, 7, []⟩ [] ⟨"20240101", "120000", 123456⟩ none ""
      = .ok (.remote ⟨"/tmp/tmp_py_mf_20240101_120000_123456", 7⟩,
             ⟨false, 7, ["/tmp/tmp_py_mf_20240101_120000_123456"]⟩,
             ["/tmp/tmp_py_mf_20240101_120000_123456"]) ∧
    Server.teardown ⟨false, 7, ["/tmp/tmp_py_mf_20240101_120000_123456"]⟩
        ["/tmp/tmp_py_mf_20240101_120000_123456"]
      = ["/tmp/tmp_py_mf_20240101_120000_123456"] ∧
    DirFs.exists? ["/tmp/tmp_py_mf_20240101_120000_123456"]
        "/tmp/tmp_py_mf_20240101_120000_123456" = true := by
  refine ⟨?_, rfl, rfl⟩
  rfl

/-- C4, amended: remote `mkdtemp` synthesizes the directory name from the prefix plus
a timestamp with sub-second resolution under `/tmp` and creates it explicitly, and on
both backends the created path is appended to the context's cleanup registry — but
the registry is never consumed: context teardown performs no removal. -/
theorem mkdtemp_registers_cleanup_no_removal (st : ServerState) (fs : DirFs)
    (now : PyTime) (pfx : Option String) (fresh : String) :
    (st.isLocal = true →
       Server.mkdtempOp st fs now pfx fresh =
         .ok (.loc fresh, { st with cleanup := st.cleanup ++ [fresh] }, fresh :: fs)) ∧
    (st.isLocal = false → fs.exists? (mkdtempName now pfx) = false →
       Server.mkdtempOp st fs now pfx fresh =
         .ok (.remote ⟨mkdtempName now pfx, st.sid⟩,
              { st with cleanup := st.cleanup ++ [mkdtempName now pfx] },
              mkdtempName now pfx :: fs)) ∧
    (∀ st' fs', Server.teardown st' fs' = fs') := by
  refine ⟨fun hl => ?_, fun hl hfree => ?_, fun _ _ => rfl⟩
  · simp [Server.mkdtempOp, hl, tempfileMkdtemp]
  · simp [Server.mkdtempOp, hl, SshServer.mkdtempOp, SshServer.mkdir, sftpOpenR,
      sftpMkdir, hfree]

/-- Witness for `mkdtemp_registers_cleanup_no_removal`, exercising both backends at
concrete states. -/
theorem mkdtemp_registers_cleanup_no_removal_witness :
    Server.mkdtempOp ⟨true, 0, []⟩ [] ⟨"20240101", "120000", 123456⟩ none "/tmp/massa_x1"
      = .ok (.loc "/tmp/massa_x1", ⟨true, 0, ["/tmp/massa_x1"]⟩, ["/tmp/massa_x1"]) ∧
    Server.mkdtempOp ⟨false, 3, []⟩ [] ⟨"20240101", "120000", 123456⟩ (some "massa_") ""
      = .ok (.remote ⟨"/tmp/massa_20240101_120000_123456", 3⟩,
             ⟨false, 3, ["/tmp/massa_20240101_120000_123456"]⟩,
             ["/tmp/massa_20240101_120000_123456"]) :=
  ⟨(mkdtemp_registers_cleanup_no_removal ⟨true, 0, []⟩ [] ⟨"20240101", "120000", 123456⟩
      none "/tmp/massa_x1").1 rfl,
   (mkdtemp_registers_cleanup_no_removal ⟨false, 3, []⟩ [] ⟨"20240101", "120000", 123456⟩
      (some "massa_") "").2.1 rfl rfl⟩

/-- C6: `Node.stop` attempts the graceful control-API stop first; exactly a
connection-level failure (`ConnectionRefusedError` or `requests` `ConnectionError`)
is caught and followed by the transport-level stop, a successful API stop triggers
nothing further, and any other exception propagates without the fallback. -/
theorem node_stop_api_first_transport_fallback :
    (Node.stopOp (.ok ()) = ([.apiStopNode], .ok ())) ∧
    (Node.stopOp (.error .connectionRefusedError)
       = ([.apiStopNode, .transportStop], .ok ())) ∧
    (Node.stopOp (.error .connectionError)
       = ([.apiStopNode, .transportStop], .ok ())) ∧
    (∀ e : PyErr, e ≠ .connectionRefusedError → e ≠ .connectionError →
       Node.stopOp (.error e) = ([.apiStopNode], .error e)) := by
  refine ⟨rfl, rfl, rfl, fun e h1 h2 => ?_⟩
  have hn : ¬(e = .connectionRefusedError ∨ e = .connectionError) := by
    rintro (h | h)
    · exact h1 h
    · exact h2 h
  simp [Node.stopOp, hn]

/-- Witness for `node_stop_api_first_transport_fallback`: a non-connection error from
the API stop propagates and does not trigger the transport stop. -/
theorem node_stop_api_first_transport_fallback_witness :
    Node.stopOp (.error (.timeoutError "t"))
      = ([.apiStopNode], .error (.timeoutError "t")) :=
  node_stop_api_first_transport_fallback.2.2.2 (.timeoutError "t")
    (by decide) (by decide)

/-- C7: on both backends, creating a directory twice with `exist_ok` succeeds both
times and leaves the directory present exactly as one entry (the second call changes
nothing); with `exist_ok=False` the second call fails on both backends. -/
theorem mkdir_twice_exist_ok (b : Bool) (fs : DirFs) (p : String) :
    (Server.mkdirOp b fs p = .ok (if fs.exists? p then fs else p :: fs)) ∧
    (Server.mkdirOp b (if fs.exists? p then fs else p :: fs) p
       = .ok (if fs.exists? p then fs else p :: fs)) ∧
    (DirFs.exists? (if fs.exists? p then fs else p :: fs) p = true) ∧
    (fs.exists? p = false →
       mkdirStrict b fs p = .ok (p :: fs) ∧
       (mkdirStrict b (p :: fs) p).isOk = false) := by
  have hcons : DirFs.exists? (p :: fs) p = true := by
    simp [DirFs.exists?]
  by_cases h : fs.exists? p = true
  · refine ⟨?_, ?_, ?_, fun hff => by rw [h] at hff; cases hff⟩ <;>
      cases b <;>
        simp [h, Server.mkdirOp, SshServer.mkdir, pathlibMkdir, sftpOpenR, sftpMkdir]
  · replace h : fs.exists? p = false := by
      cases hv : fs.exists? p
      · rfl
      · exact absurd hv h
    refine ⟨?_, ?_, ?_, fun _ => ⟨?_, ?_⟩⟩ <;>
      cases b <;>
        simp [h, hcons, Server.mkdirOp, mkdirStrict, SshServer.mkdir, pathlibMkdir,
          sftpOpenR, sftpMkdir, Except.isOk, Except.toBool]

/-- Witness for `mkdir_twice_exist_ok`: on the remote backend, with `exist_ok` unset
the second creation of the same directory fails. -/
theorem mkdir_twice_exist_ok_witness :
    mkdirStrict false [] "/tmp/massa-node" = .ok ["/tmp/massa-node"] ∧
    (mkdirStrict false ["/tmp/massa-node"] "/tmp/massa-node").isOk = false :=
  (mkdir_twice_exist_ok false [] "/tmp/massa-node").2.2.2 rfl

/-- C10: constructing a `RemotePath` without the `server` keyword raises
`RuntimeError` (no path value is produced); with it, the constructed path stores the
given server as its owning context. -/
theorem remote_path_new_requires_server (args : String) (sid : Nat) :
    RemotePathV.new args none = .error (.runtimeError "Need a server") ∧
    RemotePathV.new args (some sid) = .ok ⟨args, sid⟩ :=
  ⟨rfl, rfl⟩

/-- Helper: when every probe fails with a caught error, the polling loop raises the
timeout error after performing one sleep more than the remaining budget. -/
theorem waitReadyGo_never (attempt : Nat → Except PyErr Unit) (timeout : Nat)
    (h : ∀ j, isCaughtFail (attempt j)) :
    ∀ rem n, Node.waitReadyGo attempt timeout n rem =
      (.error (.timeoutError
        ("Node is not ready after " ++ toString timeout ++ " seconds")), n + rem + 1) := by
  intro rem
  induction rem with
  | zero =>
      intro n
      rcases h n with hc | hc <;>
        simp [Node.waitReadyGo, hc, isCaughtFail]
  | succ r ih =>
      intro n
      rcases h n with hc | hc <;>
        simp [Node.waitReadyGo, hc, isCaughtFail, ih (n + 1)] <;> omega

/-- Helper: when the probe first succeeds at attempt `k` (all earlier attempts fail
with caught errors) and `k` attempts fit in the remaining budget, the loop returns
without error after `k` sleeps. -/
theorem waitReadyGo_success (attempt : Nat → Except PyErr Unit) (timeout k : Nat)
    (hok : attempt k = .ok ()) (hbefore : ∀ j, j < k → isCaughtFail (attempt j)) :
    ∀ rem n, n ≤ k → k ≤ n + rem → Node.waitReadyGo attempt timeout n rem = (.ok (), k) := by
  intro rem
  induction rem with
  | zero =>
      intro n h1 h2
      have hnk : n = k := by omega
      subst hnk
      simp [Node.waitReadyGo, hok]
  | succ r ih =>
      intro n h1 h2
      by_cases hnk : n = k
      · subst hnk
        simp [Node.waitReadyGo, hok]
      · have hlt : n < k := by omega
        rcases hbefore n hlt with hc | hc <;>
          simp [Node.waitReadyGo, hc, isCaughtFail, ih (n + 1) (by omega) (by omega)]

/-- C9: a readiness wait with budget `timeout` against a target that never becomes
ready raises the distinct `TimeoutError` after `timeout + 0.5` seconds of sleeping —
strictly more than the budget but within one polling interval of it — while a target
that becomes ready within the budget makes `wait_ready` return without error. -/
theorem wait_ready_timeout_spec (attempt : Nat → Except PyErr Unit) (timeout k : Nat) :
    ((∀ j, isCaughtFail (attempt j)) →
       Node.wait_ready attempt timeout =
         (.error (.timeoutError
           ("Node is not ready after " ++ toString timeout ++ " seconds")),
          2 * timeout + 1) ∧
       (timeout : ℚ) < elapsedQ (2 * timeout + 1) ∧
       elapsedQ (2 * timeout + 1) ≤ (timeout : ℚ) + 1 / 2) ∧
    ((attempt k = .ok ()) → (∀ j, j < k → isCaughtFail (attempt j)) → k ≤ 2 * timeout →
       Node.wait_ready attempt timeout = (.ok (), k) ∧ elapsedQ k ≤ (timeout : ℚ)) := by
  constructor
  · intro h
    refine ⟨?_, ?_, ?_⟩
    · have hrun := waitReadyGo_never attempt timeout h (2 * timeout) 0
      rw [Node.wait_ready, hrun]
      refine congrArg _ ?_
      omega
    · rw [elapsedQ]
      push_cast
      linarith
    · rw [elapsedQ]
      push_cast
      linarith
  · intro hok hbefore hk
    refine ⟨?_, ?_⟩
    · rw [Node.wait_ready]
      exact waitReadyGo_success attempt timeout k hok hbefore (2 * timeout) 0
        (by omega) (by omega)
    · rw [elapsedQ]
      have hq : (k : ℚ) ≤ 2 * (timeout : ℚ) := by exact_mod_cast hk
      linarith

/-- Witness for `wait_ready_timeout_spec`: with budget 3 against a never-ready probe
the wait raises the timeout error after 7 sleeps (3.5 seconds); against a probe ready
at attempt 2 it returns without error after 2 sleeps. -/
theorem wait_ready_timeout_spec_witness :
    Node.wait_ready neverReadyProbe 3 =
      (.error (.timeoutError ("Node is not ready after " ++ toString 3 ++ " seconds")), 7) ∧
    Node.wait_ready readyAtTwoProbe 20 = (.ok (), 2) :=
  ⟨((wait_ready_timeout_spec neverReadyProbe 3 0).1 (fun _ => Or.inl rfl)).1,
   ((wait_ready_timeout_spec readyAtTwoProbe 20 2).2
      (by simp [readyAtTwoProbe])
      (fun j hj => Or.inr (by simp [readyAtTwoProbe, hj]))
      (by omega)).1⟩

end MassaTF
